import Mathlib

/-
Verification of the 3DCT correlation front-end (TDCT_correlation.py) and the
similarity-registration engine it invokes as correlation.main.

Coordinates and array entries are modelled as rationals (the Python code uses
floating point; the claims under study are exact structural/algebraic facts,
so exact arithmetic is the faithful idealization).
-/

/-- A 3D point or vector, in image/voxel units. -/
structure V3 where
  x : ℚ
  y : ℚ
  z : ℚ
deriving DecidableEq, Repr

def V3.add (a b : V3) : V3 := ⟨a.x + b.x, a.y + b.y, a.z + b.z⟩

def V3.sub (a b : V3) : V3 := ⟨a.x - b.x, a.y - b.y, a.z - b.z⟩

def V3.smul (s : ℚ) (a : V3) : V3 := ⟨s * a.x, s * a.y, s * a.z⟩

/-- A quaternion `(q0, q1, q2, q3)` representing a rotation. -/
structure Q4 where
  q0 : ℚ
  q1 : ℚ
  q2 : ℚ
  q3 : ℚ
deriving DecidableEq, Repr

/-- Modelled from the spec: the rotation matrix `R(q)` of a quaternion applied
to a point (the `correlation` module itself is not in the sources; the spec
describes the transform as `s·R(q)·p + d` with `R` the standard quaternion
rotation matrix). -/
def rotate (q : Q4) (p : V3) : V3 :=
  ⟨(q.q0 ^ 2 + q.q1 ^ 2 - q.q2 ^ 2 - q.q3 ^ 2) * p.x
      + 2 * (q.q1 * q.q2 - q.q0 * q.q3) * p.y
      + 2 * (q.q1 * q.q3 + q.q0 * q.q2) * p.z,
   2 * (q.q1 * q.q2 + q.q0 * q.q3) * p.x
      + (q.q0 ^ 2 - q.q1 ^ 2 + q.q2 ^ 2 - q.q3 ^ 2) * p.y
      + 2 * (q.q2 * q.q3 - q.q0 * q.q1) * p.z,
   2 * (q.q1 * q.q3 - q.q0 * q.q2) * p.x
      + 2 * (q.q2 * q.q3 + q.q0 * q.q1) * p.y
      + (q.q0 ^ 2 - q.q1 ^ 2 - q.q2 ^ 2 + q.q3 ^ 2) * p.z⟩

/-- Modelled from the spec: the centroid-form prediction
`predicted(p) = s·R(q)·p + d` of the fitted similarity transform. -/
def predicted (q : Q4) (s : ℚ) (d : V3) (p : V3) : V3 :=
  (V3.smul s (rotate q p)).add d

/-- Modelled from the spec: the custom-rotation-center translation
`d_r = d + s·R(q)·r − r` derived by the Custom-Rotation-Center Adapter. -/
def pivotTranslation (q : Q4) (s : ℚ) (d r : V3) : V3 :=
  (d.add (V3.smul s (rotate q r))).sub r

/-- Modelled from the spec: the pivot-form prediction
`s·R(q)·(p − r) + r + d_r` used when the translation is re-expressed about
a custom rotation center `r`. -/
def pivotPredicted (q : Q4) (s : ℚ) (r dr : V3) (p : V3) : V3 :=
  ((V3.smul s (rotate q (p.sub r))).add r).add dr

/-- Projection to 2D image coordinates: drop the z component. -/
def project2D (p : V3) : ℚ × ℚ := (p.x, p.y)

/-- Claim C1: for every similarity transform `(q, s, d)`, pivot `r` and point
`p`, the pivot-form prediction with the re-derived translation
`d_r = d + s·R(q)·r − r` equals the centroid-form prediction, so the
re-parameterization changes no projected 2D coordinates. -/
theorem pivot_invariance (q : Q4) (s : ℚ) (d r p : V3) :
    pivotPredicted q s r (pivotTranslation q s d r) p = predicted q s d p ∧
    project2D (pivotPredicted q s r (pivotTranslation q s d r) p) =
      project2D (predicted q s d p) := by
  have h : pivotPredicted q s r (pivotTranslation q s d r) p = predicted q s d p := by
    simp only [pivotPredicted, pivotTranslation, predicted, rotate,
      V3.add, V3.sub, V3.smul]
    congr 1 <;> ring
  exact ⟨h, by rw [h]⟩

/-- The arguments `MainWidget.correlate` passes to `correlation.main`
(markers_3d, markers_2d, spots_3d, rotation_center). -/
structure MainArgs where
  markers_3d : List V3
  markers_2d : List V3
  spots_3d : List V3
  rotation_center : V3
deriving DecidableEq, Repr

/-- Outcome of a `MainWidget.correlate` run, up to the point where
`correlation.main` is (or is not) invoked: a raised ValueError, a
QMessageBox.critical followed by `return` (no fit), or the invocation of
`correlation.main` with the given arguments. -/
inductive CorrelateOutcome where
  | valueError (msg : String)
  | criticalMsg (title msg : String)
  | fit (args : MainArgs)
deriving DecidableEq, Repr

/-- Embeds the Python test on the lowest binary digit of the imagetype code:
a scene is flagged 2D when the last character of the binary representation of
`imagetype` is the digit one, i.e. when `imagetype` is odd. -/
def is2D (imagetype : Nat) : Bool := imagetype % 2 == 1

/-- Embeds `MainWidget.model2np(model, rows)`: rows `a` through `b - 1` of the
model, each row read as its float fields. -/
def model2np (model : List V3) (a b : Nat) : List V3 :=
  (model.drop a).take (b - a)

/-- Embeds the validation and dispatch to `correlation.main` inside
`MainWidget.correlate` after the 2D/3D model roles have been assigned:
requires at least three 2D rows, then at least as many 3D rows, then calls
`correlation.main` with the first `nrRowsModel2D` rows of each model as fit
markers and the remaining 3D rows as spots. -/
def correlateCore (model2D model3D : List V3) (rc : V3) : CorrelateOutcome :=
  let nrRowsModel2D := model2D.length
  let nrRowsModel3D := model3D.length
  if nrRowsModel2D ≥ 3 then
    if nrRowsModel2D ≤ nrRowsModel3D then
      CorrelateOutcome.fit
        { markers_3d := model2np model3D 0 nrRowsModel2D
          markers_2d := model2np model2D 0 nrRowsModel2D
          spots_3d := model2np model3D nrRowsModel2D nrRowsModel3D
          rotation_center := rc }
    else
      CorrelateOutcome.criticalMsg "Data Structure"
        "The two datasets do not contain the same amount of markers!"
  else
    CorrelateOutcome.criticalMsg "Data Structure"
      "At least THREE markers are needed to do the correlation"

/-- Embeds `MainWidget.correlate`: decide from the lowest imagetype bit of the
two scenes which model is 2D and which is 3D, raising a ValueError when both
are flagged alike or undetermined, then validate and run the fit. -/
def correlate (leftImagetype rightImagetype : Nat)
    (modelLeft modelRight : List V3) (rc : V3) : CorrelateOutcome :=
  if is2D leftImagetype = true ∧ is2D rightImagetype = false then
    correlateCore modelLeft modelRight rc
  else if is2D leftImagetype = false ∧ is2D rightImagetype = true then
    correlateCore modelRight modelLeft rc
  else if is2D leftImagetype = false ∧ is2D rightImagetype = false then
    CorrelateOutcome.valueError
      "Both datasets contain only 2D information. I need one 3D and one 2D dataset"
  else if is2D leftImagetype = true ∧ is2D rightImagetype = true then
    CorrelateOutcome.valueError
      "Both datasets contain only 3D information. I need one 3D and one 2D dataset"
  else
    CorrelateOutcome.valueError "Cannot determine if datasets are 2D or 3D"

/-- Claim C2: when the 2D marker set has fewer than 3 rows, the run ends with
the insufficient-points critical error and `correlation.main` is never
invoked. -/
theorem insufficient_points_rejected (lt rt : Nat) (ml mr : List V3) (rc : V3)
    (hdiff : is2D lt ≠ is2D rt)
    (hlt : (if is2D lt = true then ml else mr).length < 3) :
    correlate lt rt ml mr rc = CorrelateOutcome.criticalMsg "Data Structure"
      "At least THREE markers are needed to do the correlation" ∧
    ∀ args, correlate lt rt ml mr rc ≠ CorrelateOutcome.fit args := by
  have hcore : ∀ m2 m3 : List V3, m2.length < 3 →
      correlateCore m2 m3 rc = CorrelateOutcome.criticalMsg "Data Structure"
        "At least THREE markers are needed to do the correlation" := by
    intro m2 m3 h
    unfold correlateCore
    rw [if_neg (by omega)]
  cases h2 : is2D lt <;> cases h3 : is2D rt <;> simp [h2, h3] at hdiff hlt ⊢ <;>
    first
      | (rw [correlate, if_neg (by simp [h2, h3]), if_pos ⟨h2, h3⟩]
         exact ⟨hcore _ _ hlt, fun args => by rw [hcore _ _ hlt]; simp⟩)
      | (rw [correlate, if_pos ⟨h2, h3⟩]
         exact ⟨hcore _ _ hlt, fun args => by rw [hcore _ _ hlt]; simp⟩)

/-- Claim C2 witness: a concrete run with one 2D marker row is rejected with
the insufficient-points error and no fit. -/
theorem insufficient_points_rejected_witness :
    correlate 21 22 [V3.mk 0 0 0] [] (V3.mk 0 0 0) =
      CorrelateOutcome.criticalMsg "Data Structure"
        "At least THREE markers are needed to do the correlation" ∧
    ∀ args, correlate 21 22 [V3.mk 0 0 0] [] (V3.mk 0 0 0) ≠
      CorrelateOutcome.fit args :=
  insufficient_points_rejected 21 22 [V3.mk 0 0 0] [] (V3.mk 0 0 0)
    (by decide) (by decide)

/-- Claim C3 counterexample: a run with 3 2D rows and 4 3D rows has differing
correspondence counts, yet the mismatched-counts error is not raised and the
fit proceeds (the extra 3D row becomes a point of interest). -/
theorem mismatched_counts_counterexample :
    ([V3.mk 0 0 0, V3.mk 1 0 0, V3.mk 0 1 0] : List V3).length ≠
      ([V3.mk 0 0 0, V3.mk 1 0 0, V3.mk 0 1 0, V3.mk 5 5 0] : List V3).length ∧
    correlateCore [V3.mk 0 0 0, V3.mk 1 0 0, V3.mk 0 1 0]
        [V3.mk 0 0 0, V3.mk 1 0 0, V3.mk 0 1 0, V3.mk 5 5 0] (V3.mk 0 0 0) =
      CorrelateOutcome.fit
        { markers_3d := [V3.mk 0 0 0, V3.mk 1 0 0, V3.mk 0 1 0]
          markers_2d := [V3.mk 0 0 0, V3.mk 1 0 0, V3.mk 0 1 0]
          spots_3d := [V3.mk 5 5 0]
          rotation_center := V3.mk 0 0 0 } := by
  constructor
  · decide
  · rfl

/-- Claim C3 (amended): the mismatched-counts error is raised exactly when the
2D row count exceeds the 3D row count (and at least 3 2D rows are present, the
insufficient-points check coming first); then no fit is attempted. -/
theorem mismatched_counts_rejected (m2 m3 : List V3) (rc : V3)
    (h3 : 3 ≤ m2.length) (hgt : m3.length < m2.length) :
    correlateCore m2 m3 rc = CorrelateOutcome.criticalMsg "Data Structure"
      "The two datasets do not contain the same amount of markers!" ∧
    ∀ args, correlateCore m2 m3 rc ≠ CorrelateOutcome.fit args := by
  have h : correlateCore m2 m3 rc = CorrelateOutcome.criticalMsg "Data Structure"
      "The two datasets do not contain the same amount of markers!" := by
    unfold correlateCore
    rw [if_pos h3, if_neg (by omega)]
  exact ⟨h, fun args => by rw [h]; simp⟩

/-- Claim C3 (amended) witness: with 4 2D rows and only 3 3D rows the run is
rejected with the mismatched-counts error. -/
theorem mismatched_counts_rejected_witness :
    correlateCore [V3.mk 0 0 0, V3.mk 1 0 0, V3.mk 0 1 0, V3.mk 1 1 0]
        [V3.mk 0 0 0, V3.mk 1 0 0, V3.mk 0 1 0] (V3.mk 0 0 0) =
      CorrelateOutcome.criticalMsg "Data Structure"
        "The two datasets do not contain the same amount of markers!" ∧
    ∀ args, correlateCore [V3.mk 0 0 0, V3.mk 1 0 0, V3.mk 0 1 0, V3.mk 1 1 0]
        [V3.mk 0 0 0, V3.mk 1 0 0, V3.mk 0 1 0] (V3.mk 0 0 0) ≠
      CorrelateOutcome.fit args :=
  mismatched_counts_rejected
    [V3.mk 0 0 0, V3.mk 1 0 0, V3.mk 0 1 0, V3.mk 1 1 0]
    [V3.mk 0 0 0, V3.mk 1 0 0, V3.mk 0 1 0] (V3.mk 0 0 0)
    (by decide) (by decide)

/-- Claim C4: with `N ≥ 3` 2D rows and `K ≥ N` 3D rows, exactly the first `N`
3D rows are passed as fit markers, paired in order with the `N` 2D rows, and
the 3D rows from index `N` on are passed in order as the points of interest;
the two parts partition the 3D model, so no row is used in both roles. -/
theorem fit_poi_partition (m2 m3 : List V3) (rc : V3)
    (h3 : 3 ≤ m2.length) (hle : m2.length ≤ m3.length) :
    correlateCore m2 m3 rc = CorrelateOutcome.fit
      { markers_3d := m3.take m2.length
        markers_2d := m2
        spots_3d := m3.drop m2.length
        rotation_center := rc } ∧
    m3.take m2.length ++ m3.drop m2.length = m3 := by
  refine ⟨?_, List.take_append_drop _ _⟩
  unfold correlateCore
  rw [if_pos h3, if_pos hle]
  have hm3 : model2np m3 0 m2.length = m3.take m2.length := by
    simp [model2np]
  have hm2 : model2np m2 0 m2.length = m2 := by
    simp [model2np]
  have hspots : model2np m3 m2.length m3.length = m3.drop m2.length := by
    have hlen : (m3.drop m2.length).length = m3.length - m2.length := by
      simp
    simp only [model2np]
    rw [← hlen, List.take_length]
  rw [hm3, hm2, hspots]

/-- Claim C4 witness: a concrete run with 3 fit markers and 2 extra 3D rows
splits the 3D model into the first 3 fit rows and the 2 trailing POI rows. -/
theorem fit_poi_partition_witness :
    correlateCore [V3.mk 0 0 0, V3.mk 1 0 0, V3.mk 0 1 0]
        [V3.mk 0 0 0, V3.mk 2 0 0, V3.mk 0 2 0, V3.mk 5 5 1, V3.mk 6 6 2]
        (V3.mk 0 0 0) =
      CorrelateOutcome.fit
        { markers_3d := [V3.mk 0 0 0, V3.mk 2 0 0, V3.mk 0 2 0]
          markers_2d := [V3.mk 0 0 0, V3.mk 1 0 0, V3.mk 0 1 0]
          spots_3d := [V3.mk 5 5 1, V3.mk 6 6 2]
          rotation_center := V3.mk 0 0 0 } ∧
    ([V3.mk 0 0 0, V3.mk 2 0 0, V3.mk 0 2 0, V3.mk 5 5 1, V3.mk 6 6 2] :
        List V3).take 3 ++
      ([V3.mk 0 0 0, V3.mk 2 0 0, V3.mk 0 2 0, V3.mk 5 5 1, V3.mk 6 6 2] :
        List V3).drop 3 =
      [V3.mk 0 0 0, V3.mk 2 0 0, V3.mk 0 2 0, V3.mk 5 5 1, V3.mk 6 6 2] :=
  fit_poi_partition [V3.mk 0 0 0, V3.mk 1 0 0, V3.mk 0 1 0]
    [V3.mk 0 0 0, V3.mk 2 0 0, V3.mk 0 2 0, V3.mk 5 5 1, V3.mk 6 6 2]
    (V3.mk 0 0 0) (by decide) (by decide)

/-- Claim C9: evaluation of `correlate` at the failing inputs. The dispatch
proceeds to a fit only when exactly one scene is flagged 2D by the lowest
imagetype bit, and a ValueError is raised otherwise before any marker-count
validation; but the two messages are swapped: two 2D datasets (imagetype 21,
odd, flagged 2D) produce the message claiming both datasets contain only 3D
information, and two 3D datasets (imagetype 22, even, flagged 3D) produce the
message claiming both contain only 2D information. -/
theorem imagetype_dispatch_messages_swapped :
    is2D 21 = true ∧ is2D 22 = false ∧
    correlate 21 21 [] [] (V3.mk 0 0 0) =
      CorrelateOutcome.valueError
        "Both datasets contain only 3D information. I need one 3D and one 2D dataset" ∧
    correlate 22 22 [] [] (V3.mk 0 0 0) =
      CorrelateOutcome.valueError
        "Both datasets contain only 2D information. I need one 3D and one 2D dataset" :=
  ⟨rfl, rfl, rfl, rfl⟩

/-- Embeds `MainWidget.setCustomRotCenter(maxdim)`: sets all three custom
rotation center spin boxes to `0.5 * maxdim`. -/
def setCustomRotCenter (maxdim : ℚ) : V3 :=
  let halfmaxdim := (0.5 : ℚ) * maxdim
  ⟨halfmaxdim, halfmaxdim, halfmaxdim⟩

/-- Embeds the maximum of a Python shape tuple: `max(imgstack.shape)`. -/
def shapeMax (shape : List Nat) : Nat := shape.foldr max 0

/-- Embeds the call `self.setCustomRotCenter(max(self.imgstack.shape))` made
in `initImageLeft` / `initImageRight` when a 3D stack is loaded. -/
def defaultRotCenterOfShape (shape : List Nat) : V3 :=
  setCustomRotCenter (shapeMax shape : ℚ)

/-- Claim C5: for every loaded 3D stack shape, the default custom rotation
center is `m / 2` on all three axes, where `m` is the maximum extent of the
volume. -/
theorem default_rot_center_half_max_extent (shape : List Nat) :
    defaultRotCenterOfShape shape =
      ⟨(shapeMax shape : ℚ) / 2, (shapeMax shape : ℚ) / 2, (shapeMax shape : ℚ) / 2⟩ ∧
    (defaultRotCenterOfShape shape).x = (defaultRotCenterOfShape shape).y ∧
    (defaultRotCenterOfShape shape).y = (defaultRotCenterOfShape shape).z := by
  have h : defaultRotCenterOfShape shape =
      ⟨(shapeMax shape : ℚ) / 2, (shapeMax shape : ℚ) / 2, (shapeMax shape : ℚ) / 2⟩ := by
    simp only [defaultRotCenterOfShape, setCustomRotCenter]
    congr 1 <;> ring
  exact ⟨h, by rw [h], by rw [h]⟩

/-- Embeds `np.absolute` on a single float entry. -/
def np_abs (v : ℚ) : ℚ := if v < 0 then -v else v

/-- Embeds `np.mean` over one axis row. -/
def np_mean (xs : List ℚ) : ℚ := xs.sum / xs.length

/-- Embeds `delta2D_mean = np.absolute(delta2D).mean(axis=1)` from
`MainWidget.displayResults`, with the 2×N residual array given as its two
axis rows. -/
def delta2D_mean (dxs dys : List ℚ) : ℚ × ℚ :=
  (np_mean (dxs.map np_abs), np_mean (dys.map np_abs))

/-- Spec form of the reported deviation: `mean_i |delta2D_i|` per axis. -/
def spec_meanAbsDelta (xs : List ℚ) : ℚ := (xs.map np_abs).sum / xs.length

/-- The alternative the spec rules out: the absolute value of the mean. -/
def absOfMeanDelta (xs : List ℚ) : ℚ := np_abs (np_mean xs)

/-- Claim C6: the reported mean deviation per axis is the mean of the
element-wise absolute residuals on that axis, and it is not in general the
absolute value of the mean residual (witnessed at `dx = [1, -1]`,
`dy = [2, -2]`). -/
theorem mean_abs_delta_is_mean_of_abs :
    (∀ dxs dys : List ℚ, delta2D_mean dxs dys =
      (spec_meanAbsDelta dxs, spec_meanAbsDelta dys)) ∧
    delta2D_mean [1, -1] [2, -2] ≠
      (absOfMeanDelta [1, -1], absOfMeanDelta [2, -2]) := by
  constructor
  · intro dxs dys
    simp [delta2D_mean, np_mean, spec_meanAbsDelta]
  · have h1 : delta2D_mean [1, -1] [2, -2] = (1, 2) := by
      norm_num [delta2D_mean, np_mean, np_abs]
    have h2 : absOfMeanDelta [1, -1] = 0 := by
      norm_num [absOfMeanDelta, np_mean, np_abs]
    rw [h1, h2]
    intro h
    have := congrArg Prod.fst h
    norm_num at this

/-- The residual bundle state kept on the widget between correlation runs:
`self.correlation_results[3]` is the stored 2×N signed residual array, given
as its two axis rows. -/
structure ResultsState where
  delta2D_x : List ℚ
  delta2D_y : List ℚ
deriving DecidableEq, Repr

/-- Embeds the residual-table portion of `MainWidget.displayResults`: the
local `delta2D` is re-bound to `np.absolute(delta2D)` when the absolute-value
checkbox is checked (a fresh array, the stored one untouched), and the rows
shown are taken from that local value. Returns the state after the call and
the displayed per-axis rows. -/
def displayResultsTable (resultsAbsoluteChecked : Bool) (st : ResultsState) :
    ResultsState × (List ℚ × List ℚ) :=
  let delta2D_x := st.delta2D_x
  let delta2D_y := st.delta2D_y
  let delta2D_x := if resultsAbsoluteChecked then delta2D_x.map np_abs else delta2D_x
  let delta2D_y := if resultsAbsoluteChecked then delta2D_y.map np_abs else delta2D_y
  (st, (delta2D_x, delta2D_y))

/-- Claim C7: the absolute-value toggle is a pure view: displaying never
changes the stored residual bundle, the toggle on shows the element-wise
absolute values, and the toggle off re-displays the stored signed values. -/
theorem absolute_display_is_pure_view (checked : Bool) (st : ResultsState) :
    (displayResultsTable checked st).1 = st ∧
    (displayResultsTable true st).2 =
      (st.delta2D_x.map np_abs, st.delta2D_y.map np_abs) ∧
    (displayResultsTable false st).2 = (st.delta2D_x, st.delta2D_y) := by
  exact ⟨rfl, rfl, rfl⟩

/-- The value of `np.pi`, the IEEE double constant used by the display layer. -/
def np_pi : ℚ := 3.141592653589793

/-- The arguments of the call `transf.extract_euler(r=transf.q, mode='x',
ret='one')` in `MainWidget.displayResults`. Modelled from the spec: the
`correlation` module is not in the sources; per the spec the extractor returns
the Euler angles of the quaternion in the x-convention, in radians. -/
structure EulerCall where
  r : Q4
  mode : String
  ret : String
deriving DecidableEq, Repr

/-- Embeds the call site: the extractor is invoked on the fitted quaternion
with `mode='x'` and `ret='one'`. -/
def displayEulerCall (q : Q4) : EulerCall := { r := q, mode := "x", ret := "one" }

/-- The three Euler angle values as shown by the display labels. -/
structure EulerLabels where
  phi : ℚ
  theta : ℚ
  psi : ℚ
deriving DecidableEq, Repr

/-- Embeds `eulers = eulers * 180 / np.pi` followed by the label assignments
`label_phi ← eulers[0]`, `label_theta ← eulers[1]`, `label_psi ← eulers[2]`
in `MainWidget.displayResults`, applied to the radian triple returned by
`extract_euler`. -/
def displayEulers (eulersRad : ℚ × ℚ × ℚ) : EulerLabels :=
  { phi := eulersRad.1 * 180 / np_pi
    theta := eulersRad.2.1 * 180 / np_pi
    psi := eulersRad.2.2 * 180 / np_pi }

/-- Claim C8: the Euler angles are requested from the fitted unit quaternion
in the x-convention (`mode='x'`), and the display layer converts each radian
value to degrees by multiplying by `180 / pi`, showing the three converted
values as phi, theta, psi in extraction order. -/
theorem euler_extraction_and_degrees (q : Q4) (eulersRad : ℚ × ℚ × ℚ) :
    (displayEulerCall q).mode = "x" ∧ (displayEulerCall q).r = q ∧
    (displayEulers eulersRad).phi = eulersRad.1 * (180 / np_pi) ∧
    (displayEulers eulersRad).theta = eulersRad.2.1 * (180 / np_pi) ∧
    (displayEulers eulersRad).psi = eulersRad.2.2 * (180 / np_pi) := by
  refine ⟨rfl, rfl, ?_, ?_, ?_⟩ <;>
    simp only [displayEulers] <;> ring

/-- The rgba value of the default (unset) background of a results-table item,
compared against in `applyResidualShift`. -/
def defaultBgRgba : Nat := 4278190080

/-- The rgba value of `QColor(50, 220, 175, 100)`, the background given to a
results row once its shift has been applied. -/
def shiftedBgRgba : Nat := 1681054895

/-- The widget state touched by `MainWidget.applyResidualShift`: the ellipse
item positions in the clicked 2D scene, the marker table model rows (x, y),
the background rgba of each results-table row, and the stored residual columns
`correlation_results[3]`. -/
structure ShiftState where
  itemPos : List (ℚ × ℚ)
  tableModel : List (ℚ × ℚ)
  resultsBgRgba : List Nat
  delta2D : List (ℚ × ℚ)
deriving DecidableEq, Repr

/-- Embeds `MainWidget.applyResidualShift` for a selected results row whose
number column gives marker index `markerNr` (only one row is selectable): when
the row background is still the default rgba, the corresponding ellipse item
is moved to the table-model coordinate plus the stored residual delta for that
marker, and the row background is recolored; afterwards `scene.itemsToModel()`
writes the item positions back into the table model. -/
def applyResidualShift (markerNr : Nat) (st : ShiftState) : ShiftState :=
  let st1 :=
    if st.resultsBgRgba.getD markerNr 0 = defaultBgRgba then
      { st with
        itemPos := st.itemPos.set markerNr
          ((st.tableModel.getD markerNr (0, 0)).1 + (st.delta2D.getD markerNr (0, 0)).1,
           (st.tableModel.getD markerNr (0, 0)).2 + (st.delta2D.getD markerNr (0, 0)).2)
        resultsBgRgba := st.resultsBgRgba.set markerNr shiftedBgRgba }
    else st
  { st1 with tableModel := st1.itemPos }

/-- Claim C10: for a selected row whose marker has not been shifted before
(default background), `applyResidualShift` moves the clicked 2D marker by
exactly the stored residual delta for that marker index, marks the row with a
non-default background, and a repeated invocation leaves the state unchanged
(no second shift). -/
theorem residual_shift_applies (st : ShiftState) (markerNr : Nat)
    (hm : markerNr < st.itemPos.length)
    (hb : markerNr < st.resultsBgRgba.length)
    (hdef : st.resultsBgRgba.getD markerNr 0 = defaultBgRgba) :
    (applyResidualShift markerNr st).itemPos.getD markerNr (0, 0) =
      ((st.tableModel.getD markerNr (0, 0)).1 + (st.delta2D.getD markerNr (0, 0)).1,
       (st.tableModel.getD markerNr (0, 0)).2 + (st.delta2D.getD markerNr (0, 0)).2) ∧
    (applyResidualShift markerNr st).resultsBgRgba.getD markerNr 0 ≠ defaultBgRgba ∧
    applyResidualShift markerNr (applyResidualShift markerNr st) =
      applyResidualShift markerNr st := by
  have hpos : (applyResidualShift markerNr st).itemPos.getD markerNr (0, 0) =
      ((st.tableModel.getD markerNr (0, 0)).1 + (st.delta2D.getD markerNr (0, 0)).1,
       (st.tableModel.getD markerNr (0, 0)).2 + (st.delta2D.getD markerNr (0, 0)).2) := by
    simp only [applyResidualShift, if_pos hdef]
    rw [List.getD_eq_getElem?_getD, List.getElem?_set_eq_of_lt _ hm]
    rfl
  have hbg : (applyResidualShift markerNr st).resultsBgRgba.getD markerNr 0 =
      shiftedBgRgba := by
    simp only [applyResidualShift, if_pos hdef]
    rw [List.getD_eq_getElem?_getD, List.getElem?_set_eq_of_lt _ hb]
    rfl
  have hne : ¬ ((applyResidualShift markerNr st).resultsBgRgba.getD markerNr 0 =
      defaultBgRgba) := by
    rw [hbg]; decide
  have htm : (applyResidualShift markerNr st).tableModel =
      (applyResidualShift markerNr st).itemPos := by
    by_cases h : st.resultsBgRgba.getD markerNr 0 = defaultBgRgba <;>
      simp [applyResidualShift, h]
  refine ⟨hpos, by rw [hbg]; decide, ?_⟩
  conv_lhs => rw [applyResidualShift]
  rw [if_neg hne]
  nth_rewrite 2 [← htm]
  rfl

/-- A concrete widget state with one marker at (10, 20), residual delta
(3, -4), and a default-background results row. -/
def exampleShiftState : ShiftState :=
  { itemPos := [(10, 20)]
    tableModel := [(10, 20)]
    resultsBgRgba := [defaultBgRgba]
    delta2D := [(3, -4)] }

/-- Claim C10 witness: applying the shift to marker 0 of the concrete state
moves it to the clicked coordinate plus its residual delta, recolors the row,
and a repeated invocation changes nothing. -/
theorem residual_shift_applies_witness :
    (applyResidualShift 0 exampleShiftState).itemPos.getD 0 (0, 0) =
      ((exampleShiftState.tableModel.getD 0 (0, 0)).1 +
        (exampleShiftState.delta2D.getD 0 (0, 0)).1,
       (exampleShiftState.tableModel.getD 0 (0, 0)).2 +
        (exampleShiftState.delta2D.getD 0 (0, 0)).2) ∧
    (applyResidualShift 0 exampleShiftState).resultsBgRgba.getD 0 0 ≠ defaultBgRgba ∧
    applyResidualShift 0 (applyResidualShift 0 exampleShiftState) =
      applyResidualShift 0 exampleShiftState :=
  residual_shift_applies exampleShiftState 0 (by decide) (by decide) (by decide)
